import Mathlib

/-!
Shallow embedding of the SETUP-transaction decoder and control-request
dispatcher of `luna/gateware/usb/usb2/request.py`.

The hardware is a tick-driven synchronous design.  We model it with:
* a state record per component (FSM state plus the registered signals
  written in the `usb` clock domain);
* a step function `State → Input → State` giving the registered update
  performed on each clock tick (`m.d.usb` assignments take effect on the
  next tick; within one tick, a later assignment overrides an earlier one);
* pure functions of `(State, Input)` for the combinational outputs
  (`m.d.comb` assignments: they hold on the same tick, defaulting to zero
  when no branch drives them).

External collaborators (token detector, data-packet deserializer,
interpacket timer) are modelled as per-tick inputs, exactly the event
interfaces the module reads.
-/

/-- The `USBSpeed` enumeration: 0 for high, 1 for full, 2 for low. -/
def USBSpeed.HIGH : Nat := 0

/-- Full speed. -/
def USBSpeed.FULL : Nat := 1

/-- Low speed. -/
def USBSpeed.LOW : Nat := 2

/-- `SetupPacket` record: the registered output fields of the setup decoder.
Field widths in the source: received 1, is_in_request 1, type 2, recipient 5,
request 8, value 16, index 16, length 16.  One-bit signals become `Bool`,
wider signals become `Nat` (the step function only ever stores in-range
values, mirroring the hardware truncation on assignment). -/
structure SetupPacket where
  received      : Bool
  is_in_request : Bool
  type          : Nat
  recipient     : Nat
  request       : Nat
  value         : Nat
  index         : Nat
  length        : Nat
deriving DecidableEq

/-- Reset value of the `SetupPacket` record (all signals reset to zero). -/
def SetupPacket.reset : SetupPacket :=
  { received := false, is_in_request := false, type := 0, recipient := 0
    request := 0, value := 0, index := 0, length := 0 }

/-- The three FSM states of `USBSetupDecoder.elaborate`. -/
inductive DecFsm where
  | IDLE
  | READ_DATA
  | INTERPACKET_DELAY
deriving DecidableEq

/-- Registered state of the `USBSetupDecoder`: the FSM state plus the
`SetupPacket` output record. -/
structure DecoderState where
  fsm    : DecFsm
  packet : SetupPacket
deriving DecidableEq

/-- Per-tick inputs read by `USBSetupDecoder.elaborate`:
* `tokenizer.pid` / `tokenizer.new_token` from the token detector;
* `data_handler.new_packet`, `data_handler.length` and the byte buffer
  `data_handler.packet` from the data-packet deserializer (each entry is an
  8-bit signal, so carries a value below 256);
* `speed`, the device's current operating speed;
* `timer.tx_allowed` from the interpacket timer. -/
structure DecInput where
  pid        : Nat
  new_token  : Bool
  new_packet : Bool
  length     : Nat
  packet     : List Nat
  speed      : Nat
  tx_allowed : Bool
deriving DecidableEq

/-- `USBSetupDecoder.SETUP_PID = 0b1101`. -/
def SETUP_PID : Nat := 0b1101

/-- The field parse performed on a valid 8-byte payload:

    request_type = Cat(packet.recipient, packet.type, packet.is_in_request)
    request_type.eq(data[0])            -- recipient bits 0-4, type 5-6, dir 7
    packet.request.eq(data[1])
    packet.value.eq(Cat(data[2], data[3]))
    packet.index.eq(Cat(data[4], data[5]))
    packet.length.eq(Cat(data[6], data[7]))
    packet.received.eq(1)

Each `data[k]` is an 8-bit signal; reading it through `byteAt` applies the
8-bit truncation the hardware wires carry. -/
def byteAt (bytes : List Nat) (k : Nat) : Nat :=
  bytes.getD k 0 % 256

/-- The registered assignments of the successful-decode branch. -/
def parseSetupData (bytes : List Nat) : SetupPacket :=
  { received      := true
    recipient     := byteAt bytes 0 % 32
    type          := byteAt bytes 0 / 32 % 4
    is_in_request := byteAt bytes 0 / 128 == 1
    request       := byteAt bytes 1
    value         := byteAt bytes 2 + byteAt bytes 3 * 256
    index         := byteAt bytes 4 + byteAt bytes 5 * 256
    length        := byteAt bytes 6 + byteAt bytes 7 * 256 }

/-- One clock tick of the `USBSetupDecoder` registered logic.

Outside the FSM the module holds `packet.received.eq(0)` as a default,
overridden inside the successful-decode branch.  Inside `READ_DATA`, the
`If(new_token)` block and the `If(new_packet)` block are written in that
order, so when both pulse on the same tick the later `new_packet` block's
`m.next` assignment wins. -/
def decStep (s : DecoderState) (i : DecInput) : DecoderState :=
  let idlePacket := { s.packet with received := false }
  match s.fsm with
  | DecFsm.IDLE =>
      if i.pid == SETUP_PID && i.new_token then
        { fsm := DecFsm.READ_DATA, packet := idlePacket }
      else
        { fsm := DecFsm.IDLE, packet := idlePacket }
  | DecFsm.READ_DATA =>
      if i.new_packet then
        if i.length == 8 then
          if i.speed == USBSpeed.HIGH then
            { fsm := DecFsm.IDLE, packet := parseSetupData i.packet }
          else
            { fsm := DecFsm.INTERPACKET_DELAY, packet := parseSetupData i.packet }
        else
          { fsm := DecFsm.IDLE, packet := idlePacket }
      else if i.new_token then
        { fsm := DecFsm.IDLE, packet := idlePacket }
      else
        { fsm := DecFsm.READ_DATA, packet := idlePacket }
  | DecFsm.INTERPACKET_DELAY =>
      if i.tx_allowed then
        { fsm := DecFsm.IDLE, packet := idlePacket }
      else
        { fsm := DecFsm.INTERPACKET_DELAY, packet := idlePacket }

/-- The combinational `ack` output: driven to 1 only in the high-speed
successful-decode branch of `READ_DATA` and in `INTERPACKET_DELAY` when
`timer.tx_allowed` is asserted; 0 otherwise. -/
def decAck (s : DecoderState) (i : DecInput) : Bool :=
  match s.fsm with
  | DecFsm.IDLE => false
  | DecFsm.READ_DATA => i.new_packet && i.length == 8 && i.speed == USBSpeed.HIGH
  | DecFsm.INTERPACKET_DELAY => i.tx_allowed

/-- The combinational `timer.start` output:
`m.d.comb += self.timer.start.eq(data_handler.new_packet)`, placed outside
the FSM, hence active in every state. -/
def decStart (_s : DecoderState) (i : DecInput) : Bool :=
  i.new_packet

/-- Reset state of the decoder: FSM in `IDLE`, record at its reset value. -/
def decInit : DecoderState :=
  { fsm := DecFsm.IDLE, packet := SetupPacket.reset }

/-- Run the decoder from a state over a list of per-tick inputs. -/
def decRun (s : DecoderState) : List DecInput → DecoderState
  | [] => s
  | i :: rest => decRun (decStep s i) rest

/-- The two FSM states of `StandardRequestHandler.elaborate`. -/
inductive HandlerFsm where
  | IDLE
  | UNHANDLED
deriving DecidableEq

/-- Per-tick inputs read by `StandardRequestHandler.elaborate`:
the `setup.received` strobe of its interface's `SetupPacket`, and the
externally driven `data_requested` / `status_requested` strobes. -/
structure HandlerInput where
  setup_received   : Bool
  data_requested   : Bool
  status_requested : Bool
deriving DecidableEq

/-- One clock tick of the `StandardRequestHandler` FSM. -/
def handlerStep (s : HandlerFsm) (i : HandlerInput) : HandlerFsm :=
  match s with
  | HandlerFsm.IDLE =>
      if i.setup_received then HandlerFsm.UNHANDLED else HandlerFsm.IDLE
  | HandlerFsm.UNHANDLED =>
      if i.data_requested || i.status_requested then HandlerFsm.IDLE
      else HandlerFsm.UNHANDLED

/-- The combinational `handshake.stall` output: driven to 1 only in
`UNHANDLED` when `data_requested | status_requested` is asserted. -/
def handlerStall (s : HandlerFsm) (i : HandlerInput) : Bool :=
  match s with
  | HandlerFsm.IDLE => false
  | HandlerFsm.UNHANDLED => i.data_requested || i.status_requested

/-- Spec-side reading of byte 0 (the bmRequestType byte), following the
spec's words: `recipient` is bits 0-4. -/
def specRecipient (b0 : Nat) : Nat := b0 &&& 0x1F

/-- Spec-side reading of byte 0: `type` is bits 5-6. -/
def specRequestType (b0 : Nat) : Nat := (b0 >>> 5) &&& 0x3

/-- Spec-side reading of byte 0: `is_in_request` is bit 7. -/
def specIsInRequest (b0 : Nat) : Bool := b0.testBit 7

/-- Spec-side little-endian assembly of a 16-bit field from two bytes
(first byte low, second byte high). -/
def specLE16 (lo hi : Nat) : Nat := lo + 256 * hi

/-- Sample quiet input tick: no event pulses (full speed). -/
def tickQuiet : DecInput :=
  { pid := 0, new_token := false, new_packet := false, length := 0
    packet := [], speed := USBSpeed.FULL, tx_allowed := false }

/-- Sample input tick: a SETUP token pulse (full speed). -/
def tickSetupToken : DecInput :=
  { pid := SETUP_PID, new_token := true, new_packet := false, length := 0
    packet := [], speed := USBSpeed.FULL, tx_allowed := false }

/-- Sample input tick: the reference 8-byte setup payload of the repository's
tests completes (full speed). Bytes: bmRequestType 0b01000010, request 12,
value 0xABCD, index 0x0123, length 0x5678, little endian. -/
def tickData8FS : DecInput :=
  { pid := 0, new_token := false, new_packet := true, length := 8
    packet := [0b01000010, 12, 0xcd, 0xab, 0x23, 0x01, 0x78, 0x56]
    speed := USBSpeed.FULL, tx_allowed := false }

/-- Sample input tick: the same 8-byte payload completes at high speed. -/
def tickData8HS : DecInput :=
  { tickData8FS with speed := USBSpeed.HIGH }

/-- Sample input tick: a 6-byte data payload completes (scenario C). -/
def tickData6 : DecInput :=
  { pid := 0, new_token := false, new_packet := true, length := 6
    packet := [0x23, 0x45, 0x67, 0x89, 0x1c, 0x0e]
    speed := USBSpeed.FULL, tx_allowed := false }

/-- Sample input tick: the interpacket timer fires (full speed). -/
def tickTxAllowed : DecInput :=
  { pid := 0, new_token := false, new_packet := false, length := 0
    packet := [], speed := USBSpeed.FULL, tx_allowed := true }

/-- Sample input tick: a token pulse and an 8-byte data-packet pulse arrive
on the same tick (full speed). -/
def tickTokenAndData8 : DecInput :=
  { tickData8FS with new_token := true, pid := SETUP_PID }

/-- The decoder state after a SETUP token from reset: FSM in `READ_DATA`. -/
def stateReadData : DecoderState := decStep decInit tickSetupToken

/-- The decoder state after the reference full-speed decode: FSM in
`INTERPACKET_DELAY`, fields parsed, `received` high for this tick. -/
def stateDelay : DecoderState := decStep stateReadData tickData8FS

/-- Sample dispatcher input tick: the status phase requests a reply. -/
def tickStatus : HandlerInput :=
  { setup_received := false, data_requested := false, status_requested := true }

set_option maxRecDepth 4096 in
/-- Bridge between the slice arithmetic the `Cat` assignment performs on
byte 0 and the spec's bit-field description, for any 8-bit value. -/
theorem byte0_slices_eq_bitfields :
    ∀ b0 < 256, b0 % 32 = b0 &&& 0x1F ∧ b0 / 32 % 4 = (b0 >>> 5) &&& 0x3 ∧
      ((b0 / 128 == 1) = b0.testBit 7) := by decide

/-- On a successful 8-byte decode in `READ_DATA`, the registered packet
record becomes exactly the parsed payload, whatever the speed. -/
theorem decStep_decode_packet (s : DecoderState) (i : DecInput)
    (hfsm : s.fsm = DecFsm.READ_DATA) (hnp : i.new_packet = true)
    (hlen : i.length = 8) :
    (decStep s i).packet = parseSetupData i.packet := by
  rcases s with ⟨fsm, pkt⟩
  simp only at hfsm
  subst hfsm
  simp only [decStep, hnp, hlen]
  repeat' split
  all_goals simp_all

/-- Claim C1: whenever the decoder, in `READ_DATA`, receives a data packet of
exactly 8 bytes, the committed `SetupPacket` fields equal the payload bytes
reinterpreted per the fixed layout: byte 0 packs `recipient` in bits 0-4,
`type` in bits 5-6, `is_in_request` in bit 7; `request` is byte 1; `value`,
`index` and `length` are the little-endian byte pairs 2-3, 4-5 and 6-7. -/
theorem decode_fields_match_spec_layout (s : DecoderState) (i : DecInput)
    (b0 b1 b2 b3 b4 b5 b6 b7 : Nat)
    (hfsm : s.fsm = DecFsm.READ_DATA) (hnp : i.new_packet = true)
    (hlen : i.length = 8)
    (hbytes : i.packet = [b0, b1, b2, b3, b4, b5, b6, b7])
    (h0 : b0 < 256) (h1 : b1 < 256) (h2 : b2 < 256) (h3 : b3 < 256)
    (h4 : b4 < 256) (h5 : b5 < 256) (h6 : b6 < 256) (h7 : b7 < 256) :
    (decStep s i).packet.recipient = specRecipient b0 ∧
    (decStep s i).packet.type = specRequestType b0 ∧
    (decStep s i).packet.is_in_request = specIsInRequest b0 ∧
    (decStep s i).packet.request = b1 ∧
    (decStep s i).packet.value = specLE16 b2 b3 ∧
    (decStep s i).packet.index = specLE16 b4 b5 ∧
    (decStep s i).packet.length = specLE16 b6 b7 := by
  obtain ⟨r1, r2, r3⟩ := byte0_slices_eq_bitfields b0 h0
  rw [decStep_decode_packet s i hfsm hnp hlen, hbytes]
  simp only [parseSetupData, byteAt, List.getD_cons_zero, List.getD_cons_succ,
    specRecipient, specRequestType, specIsInRequest, specLE16]
  rw [Nat.mod_eq_of_lt h0, Nat.mod_eq_of_lt h1, Nat.mod_eq_of_lt h2,
    Nat.mod_eq_of_lt h3, Nat.mod_eq_of_lt h4, Nat.mod_eq_of_lt h5,
    Nat.mod_eq_of_lt h6, Nat.mod_eq_of_lt h7]
  refine ⟨r1, r2, r3, rfl, by omega, by omega, by omega⟩

/-- Witness for C1 at the reference payload of scenario A. -/
theorem decode_fields_match_spec_layout_witness :
    (decStep stateReadData tickData8FS).packet.recipient = specRecipient 0b01000010 ∧
    (decStep stateReadData tickData8FS).packet.type = specRequestType 0b01000010 ∧
    (decStep stateReadData tickData8FS).packet.is_in_request = specIsInRequest 0b01000010 ∧
    (decStep stateReadData tickData8FS).packet.request = 12 ∧
    (decStep stateReadData tickData8FS).packet.value = specLE16 0xcd 0xab ∧
    (decStep stateReadData tickData8FS).packet.index = specLE16 0x23 0x01 ∧
    (decStep stateReadData tickData8FS).packet.length = specLE16 0x78 0x56 :=
  decode_fields_match_spec_layout stateReadData tickData8FS
    0b01000010 12 0xcd 0xab 0x23 0x01 0x78 0x56
    (by decide) rfl rfl rfl
    (by decide) (by decide) (by decide) (by decide)
    (by decide) (by decide) (by decide) (by decide)

/-- Claim C3: at high speed, whenever the decoder in `READ_DATA` receives a
data packet of exactly 8 bytes, `ack` pulses on that same tick and the
machine returns to `IDLE`. -/
theorem hs_ack_same_tick (s : DecoderState) (i : DecInput)
    (hfsm : s.fsm = DecFsm.READ_DATA) (hspeed : i.speed = USBSpeed.HIGH)
    (hnp : i.new_packet = true) (hlen : i.length = 8) :
    decAck s i = true ∧ (decStep s i).fsm = DecFsm.IDLE := by
  rcases s with ⟨fsm, pkt⟩
  simp only at hfsm
  subst hfsm
  simp [decAck, decStep, hnp, hlen, hspeed]

/-- Witness for C3: the reference payload at high speed. -/
theorem hs_ack_same_tick_witness :
    decAck stateReadData tickData8HS = true ∧
    (decStep stateReadData tickData8HS).fsm = DecFsm.IDLE :=
  hs_ack_same_tick stateReadData tickData8HS (by decide) rfl rfl rfl

/-- Claim C10: the decoder asserts `timer.start` on exactly the ticks on
which the data deserializer's `new_packet` pulses, in every FSM state, for
every payload length and at every speed: the assignment sits outside the
FSM and is unconditional. -/
theorem timer_start_tracks_new_packet (s : DecoderState) (i : DecInput) :
    decStart s i = i.new_packet := rfl

/-- Counterexample to C2 as stated: on the reference full-speed trace, the
timer's `tx_allowed` fires while the decoder sits in `INTERPACKET_DELAY`,
and `ack` pulses on that very tick — not one tick later, where it is
already deasserted again (`ack` is a combinational function of
`tx_allowed`). -/
theorem ack_one_tick_after_tx_allowed_cex :
    stateDelay.fsm = DecFsm.INTERPACKET_DELAY ∧
    decAck stateDelay tickTxAllowed = true ∧
    decAck (decStep stateDelay tickTxAllowed) tickQuiet = false := by decide

/-- Claim C2 (amended): at full or low speed, `ack` pulses on exactly the
ticks on which the decoder is in `INTERPACKET_DELAY` and `tx_allowed`
asserts — the same tick as `tx_allowed`, not one tick after — and
`INTERPACKET_DELAY` is only entered through a successful 8-byte decode, so
`ack` never pulses before `tx_allowed` has asserted after such a decode. -/
theorem fs_ls_ack_iff_tx_allowed (s : DecoderState) (i : DecInput)
    (hspeed : i.speed = USBSpeed.FULL ∨ i.speed = USBSpeed.LOW) :
    (decAck s i = true ↔ (s.fsm = DecFsm.INTERPACKET_DELAY ∧ i.tx_allowed = true)) ∧
    ((decStep s i).fsm = DecFsm.INTERPACKET_DELAY →
      (s.fsm = DecFsm.READ_DATA ∧ i.new_packet = true ∧ i.length = 8) ∨
      (s.fsm = DecFsm.INTERPACKET_DELAY ∧ i.tx_allowed = false)) := by
  have hs0 : (i.speed == USBSpeed.HIGH) = false := by
    rcases hspeed with h | h <;> simp [h, USBSpeed.FULL, USBSpeed.LOW, USBSpeed.HIGH]
  rcases s with ⟨fsm, pkt⟩
  cases fsm <;>
    simp only [decAck, decStep, hs0] <;>
    constructor
  · simp
  · split <;> simp_all
  · simp [Bool.and_eq_true]
  · repeat' split
    all_goals simp_all
  · simp
  · split <;> simp_all

/-- Witness for C2 (amended) on the reference full-speed trace. -/
theorem fs_ls_ack_iff_tx_allowed_witness :
    decAck stateDelay tickTxAllowed = true :=
  (fs_ls_ack_iff_tx_allowed stateDelay tickTxAllowed (Or.inl rfl)).1.mpr (by decide)

/-- The registered `received` strobe is high exactly on the tick after a
successful 8-byte decode in `READ_DATA`. -/
theorem received_iff_decode (s : DecoderState) (i : DecInput) :
    (decStep s i).packet.received = true ↔
      (s.fsm = DecFsm.READ_DATA ∧ i.new_packet = true ∧ i.length = 8) := by
  rcases s with ⟨fsm, pkt⟩
  cases fsm <;> simp only [decStep] <;> repeat' split
  all_goals simp_all [parseSetupData]

/-- A successful decode leaves `READ_DATA` on the same tick. -/
theorem decode_leaves_read_data (s : DecoderState) (i : DecInput)
    (hfsm : s.fsm = DecFsm.READ_DATA) (hnp : i.new_packet = true)
    (hlen : i.length = 8) :
    (decStep s i).fsm ≠ DecFsm.READ_DATA := by
  rcases s with ⟨fsm, pkt⟩
  simp only at hfsm
  subst hfsm
  simp only [decStep, hnp, hlen]
  repeat' split
  all_goals simp_all

/-- Claim C4: `packet.received` pulses for exactly one tick per successful
8-byte decode in `READ_DATA` — it is high on the tick after a decode and on
no other tick (in particular never for a payload whose length differs
from 8), and it is never high on two consecutive ticks. -/
theorem received_once_per_decode :
    (∀ (s : DecoderState) (i : DecInput),
      (decStep s i).packet.received = true ↔
        (s.fsm = DecFsm.READ_DATA ∧ i.new_packet = true ∧ i.length = 8)) ∧
    (∀ (s : DecoderState) (i j : DecInput),
      (decStep s i).packet.received = true →
      (decStep (decStep s i) j).packet.received = false) := by
  refine ⟨received_iff_decode, fun s i j h => ?_⟩
  obtain ⟨hfsm, hnp, hlen⟩ := (received_iff_decode s i).mp h
  rcases Bool.eq_false_or_eq_true ((decStep (decStep s i) j).packet.received) with ht | hf
  · exact absurd ((received_iff_decode (decStep s i) j).mp ht).1
      (decode_leaves_read_data s i hfsm hnp hlen)
  · exact hf

/-- Witness for C4: after the reference decode, `received` is low again on
the following tick. -/
theorem received_once_per_decode_witness :
    (decStep (decStep stateReadData tickData8FS) tickTxAllowed).packet.received = false :=
  received_once_per_decode.2 stateReadData tickData8FS tickTxAllowed (by decide)

/-- Claim C5: the seven `SetupPacket` data fields are written only on a
successful 8-byte decode in `READ_DATA`; on every other tick and event each
field retains its previous value. -/
theorem fields_stable_outside_decode (s : DecoderState) (i : DecInput)
    (h : ¬(s.fsm = DecFsm.READ_DATA ∧ i.new_packet = true ∧ i.length = 8)) :
    (decStep s i).packet.is_in_request = s.packet.is_in_request ∧
    (decStep s i).packet.type = s.packet.type ∧
    (decStep s i).packet.recipient = s.packet.recipient ∧
    (decStep s i).packet.request = s.packet.request ∧
    (decStep s i).packet.value = s.packet.value ∧
    (decStep s i).packet.index = s.packet.index ∧
    (decStep s i).packet.length = s.packet.length := by
  rcases s with ⟨fsm, pkt⟩
  simp only at h
  cases fsm <;> simp only [decStep] <;> repeat' split
  all_goals simp_all

/-- Witness for C5: a quiet tick in `IDLE` leaves every field unchanged. -/
theorem fields_stable_outside_decode_witness :
    (decStep decInit tickQuiet).packet.is_in_request = decInit.packet.is_in_request ∧
    (decStep decInit tickQuiet).packet.type = decInit.packet.type ∧
    (decStep decInit tickQuiet).packet.recipient = decInit.packet.recipient ∧
    (decStep decInit tickQuiet).packet.request = decInit.packet.request ∧
    (decStep decInit tickQuiet).packet.value = decInit.packet.value ∧
    (decStep decInit tickQuiet).packet.index = decInit.packet.index ∧
    (decStep decInit tickQuiet).packet.length = decInit.packet.length :=
  fields_stable_outside_decode decInit tickQuiet (by decide)

/-- Claim C6: once the decoder is in `INTERPACKET_DELAY`, its next state,
its `ack` output and its packet record are functions of `tx_allowed` alone
— so no token event (`new_token`, any PID) changes them — and the only
transition out is taken on the tick `tx_allowed` asserts, pulsing `ack`
and returning to `IDLE`. -/
theorem interpacket_delay_committed (s : DecoderState) (i : DecInput)
    (hfsm : s.fsm = DecFsm.INTERPACKET_DELAY) :
    (decStep s i).fsm =
      (if i.tx_allowed then DecFsm.IDLE else DecFsm.INTERPACKET_DELAY) ∧
    decAck s i = i.tx_allowed ∧
    (decStep s i).packet = { s.packet with received := false } := by
  rcases s with ⟨fsm, pkt⟩
  simp only at hfsm
  subst hfsm
  refine ⟨?_, rfl, ?_⟩ <;> simp only [decStep] <;> split <;> simp_all

/-- Witness for C6: a quiet waiting tick in `INTERPACKET_DELAY`. -/
theorem interpacket_delay_committed_witness :
    (decStep stateDelay tickQuiet).fsm =
      (if tickQuiet.tx_allowed then DecFsm.IDLE else DecFsm.INTERPACKET_DELAY) ∧
    decAck stateDelay tickQuiet = tickQuiet.tx_allowed ∧
    (decStep stateDelay tickQuiet).packet = { stateDelay.packet with received := false } :=
  interpacket_delay_committed stateDelay tickQuiet (by decide)

/-- Counterexample to C7 as stated: with the decoder in `READ_DATA`
(reached from reset by a SETUP token), a tick carrying both a token pulse
and an 8-byte data-packet pulse at full speed decodes the payload — the
`new_packet` block is written after the `new_token` block and its `m.next`
assignment wins — so the machine moves to `INTERPACKET_DELAY` with
`received` pulsed instead of returning to `IDLE` with no side effects. -/
theorem read_data_token_abort_cex :
    stateReadData.fsm = DecFsm.READ_DATA ∧
    tickTokenAndData8.new_token = true ∧
    (decStep stateReadData tickTokenAndData8).fsm = DecFsm.INTERPACKET_DELAY ∧
    (decStep stateReadData tickTokenAndData8).packet.received = true := by decide

/-- Claim C7 (amended): on every tick on which the decoder is in
`READ_DATA` and a token pulse is observed without a simultaneous 8-byte
data packet, the machine returns to `IDLE` discarding the in-flight frame
with no side effects: no `received` pulse, no `ack` pulse, no field
written.  (When an 8-byte data packet completes on the same tick, the data
branch takes priority and the packet is decoded.) -/
theorem read_data_token_aborts (s : DecoderState) (i : DecInput)
    (hfsm : s.fsm = DecFsm.READ_DATA) (htok : i.new_token = true)
    (hnd : ¬(i.new_packet = true ∧ i.length = 8)) :
    (decStep s i).fsm = DecFsm.IDLE ∧
    (decStep s i).packet = { s.packet with received := false } ∧
    decAck s i = false := by
  rcases s with ⟨fsm, pkt⟩
  simp only at hfsm
  subst hfsm
  rcases Bool.eq_false_or_eq_true i.new_packet with hnp | hnp
  · have hl8 : (i.length == 8) = false := by
      simp only [beq_eq_false_iff_ne, ne_eq]
      exact fun hl => hnd ⟨hnp, hl⟩
    simp [decStep, decAck, hnp, hl8]
  · simp [decStep, decAck, hnp, htok]

/-- Witness for C7 (amended): a second token while awaiting data. -/
theorem read_data_token_aborts_witness :
    (decStep stateReadData tickSetupToken).fsm = DecFsm.IDLE ∧
    (decStep stateReadData tickSetupToken).packet =
      { stateReadData.packet with received := false } ∧
    decAck stateReadData tickSetupToken = false :=
  read_data_token_aborts stateReadData tickSetupToken (by decide) rfl (by decide)

/-- Claim C8: a data packet whose length differs from 8, received in
`READ_DATA`, is silently discarded atomically: no partial field committed,
`received` does not pulse, no `ack`, and the machine returns to `IDLE`. -/
theorem short_packet_discarded (s : DecoderState) (i : DecInput)
    (hfsm : s.fsm = DecFsm.READ_DATA) (hnp : i.new_packet = true)
    (hlen : i.length ≠ 8) :
    (decStep s i).fsm = DecFsm.IDLE ∧
    (decStep s i).packet = { s.packet with received := false } ∧
    decAck s i = false := by
  rcases s with ⟨fsm, pkt⟩
  simp only at hfsm
  subst hfsm
  have hl8 : (i.length == 8) = false := by
    simp only [beq_eq_false_iff_ne, ne_eq]
    exact hlen
  simp [decStep, decAck, hnp, hl8]

/-- Witness for C8: the 6-byte payload of scenario C. -/
theorem short_packet_discarded_witness :
    (decStep stateReadData tickData6).fsm = DecFsm.IDLE ∧
    (decStep stateReadData tickData6).packet =
      { stateReadData.packet with received := false } ∧
    decAck stateReadData tickData6 = false :=
  short_packet_discarded stateReadData tickData6 (by decide) rfl (by decide)

/-- Claim C9: from `IDLE` a `setup.received` pulse moves the dispatcher to
`UNHANDLED`; in `UNHANDLED`, on the first tick on which `data_requested` or
`status_requested` pulses, `stall` asserts for exactly that one tick and
the dispatcher returns to `IDLE` (until then it waits with `stall` low, and
`stall` is never driven in `IDLE`). -/
theorem unhandled_request_stalls_once :
    (∀ i : HandlerInput, i.setup_received = true →
      handlerStep HandlerFsm.IDLE i = HandlerFsm.UNHANDLED) ∧
    (∀ i : HandlerInput, (i.data_requested || i.status_requested) = true →
      handlerStall HandlerFsm.UNHANDLED i = true ∧
      handlerStep HandlerFsm.UNHANDLED i = HandlerFsm.IDLE) ∧
    (∀ i : HandlerInput, (i.data_requested || i.status_requested) = false →
      handlerStall HandlerFsm.UNHANDLED i = false ∧
      handlerStep HandlerFsm.UNHANDLED i = HandlerFsm.UNHANDLED) ∧
    (∀ i : HandlerInput, handlerStall HandlerFsm.IDLE i = false) := by
  refine ⟨fun i h => ?_, fun i h => ?_, fun i h => ?_, fun i => rfl⟩ <;>
    simp [handlerStep, handlerStall, h]

/-- Witness for C9: a status-phase strobe while `UNHANDLED`. -/
theorem unhandled_request_stalls_once_witness :
    handlerStall HandlerFsm.UNHANDLED tickStatus = true ∧
    handlerStep HandlerFsm.UNHANDLED tickStatus = HandlerFsm.IDLE :=
  unhandled_request_stalls_once.2.1 tickStatus (by decide)
